import Mathlib

/-!
Shallow embedding of the GCP IAM ServiceAccount managed-resource controller
(`pkg/controller/iam/managed.go`).  Pure Go functions become Lean functions;
the Kubernetes client and the GCP IAM API are oracles passed in as function
arguments, and every operation additionally returns the list of calls it
issued, in order, so that statements about *which* requests were sent can be
made.  Go's `(value, error)` pairs become explicit pairs of a value and an
`Option GoError`; a `nil` Go pointer or interface becomes `none`.
-/

/-- Error model for Go's `error` interface as used by the controller:
`errors.New`, `errors.Wrap` (from github.com/pkg/errors) and
`*googleapi.Error` values carrying an HTTP status code. -/
inductive GoError where
  | new (msg : String)
  | wrap (inner : GoError) (msg : String)
  | googleapi (code : Nat) (msg : String)
deriving DecidableEq, Repr

/-- Model of `errors.Wrap err msg` from github.com/pkg/errors: returns
`nil` when `err` is `nil`, otherwise the wrapped error. -/
def goWrap (e : Option GoError) (msg : String) : Option GoError :=
  match e with
  | none => none
  | some err => some (GoError.wrap err msg)

/-- Modelled from the spec: `gcp.IsErrorNotFound` lives in `pkg/clients`
which is not under `src/`.  Per the spec's error taxonomy, the provider
signals resource absence via an HTTP 404 googleapi error; any other error
(or no error) is not a not-found. -/
def IsErrorNotFound (e : Option GoError) : Bool :=
  match e with
  | some (GoError.googleapi code _) => code == 404
  | _ => false

/-- Modelled from the spec: `gcp.StringValue` lives in `pkg/clients` which
is not under `src/`.  Per the spec, an absent optional field projects to
the empty string on the outbound direction. -/
def StringValue (v : Option String) : String :=
  match v with
  | none => ""
  | some s => s

/-- Raw secret bytes (Go `[]byte`); `none` stands for a nil slice. -/
abbrev Bytes := List Nat

namespace iamv1

/-- The fields of `iamv1.ServiceAccount` read or written by the controller.
Go zero values: empty strings and `false`. -/
structure ServiceAccount where
  Name : String
  UniqueId : String
  Email : String
  Oauth2ClientId : String
  Disabled : Bool
  DisplayName : String
  Description : String
deriving DecidableEq, Repr

/-- The zero value `iamv1.ServiceAccount{}`. -/
def ServiceAccount.zero : ServiceAccount :=
  { Name := "", UniqueId := "", Email := "", Oauth2ClientId := ""
    Disabled := false, DisplayName := "", Description := "" }

/-- `iamv1.CreateServiceAccountRequest`. -/
structure CreateServiceAccountRequest where
  AccountId : String
  ServiceAccount : ServiceAccount
deriving DecidableEq, Repr

/-- `iamv1.PatchServiceAccountRequest`. -/
structure PatchServiceAccountRequest where
  ServiceAccount : ServiceAccount
  UpdateMask : String
deriving DecidableEq, Repr

/-- Opaque handle for `*iamv1.ProjectsServiceAccountsService`; the
controller never inspects it, only stores it and calls through it. -/
structure ProjectsServiceAccountsService where
deriving DecidableEq, Repr

end iamv1

namespace v1alpha1

/-- `v1alpha1.ServiceAccountParameters`: the desired (mutable) parameters;
optional string fields are Go string pointers, here `Option String`. -/
structure ServiceAccountParameters where
  DisplayName : Option String
  Description : Option String
deriving DecidableEq, Repr

/-- `v1alpha1.ServiceAccountObservation`: the status fields written by
`populateCRFromProvider`. -/
structure ServiceAccountObservation where
  UniqueID : String
  Email : String
  Oauth2ClientID : String
  Disabled : Bool
  Name : String
deriving DecidableEq, Repr

/-- `v1alpha1.ServiceAccount` managed resource, reduced to the pieces the
controller touches: the external-name annotation (`meta.GetExternalName`),
`Spec.ForProvider` and `Status.AtProvider`. -/
structure ServiceAccount where
  externalName : String
  forProvider : ServiceAccountParameters
  atProvider : ServiceAccountObservation
deriving DecidableEq, Repr

end v1alpha1

/-- `meta.GetExternalName` on the managed resource (reads the external-name
annotation, modelled as a field). -/
def GetExternalName (sa : v1alpha1.ServiceAccount) : String :=
  sa.externalName

/-- A managed resource handed to the controller: either a
`*v1alpha1.ServiceAccount` or a value of some other kind (the failed
type-assertion branch); `kind` tags which other kind it was. -/
inductive Managed where
  | serviceAccount (sa : v1alpha1.ServiceAccount)
  | other (kind : String)
deriving DecidableEq, Repr

/-- `k8s.io/apimachinery` `types.NamespacedName`. -/
structure NamespacedName where
  Namespace : String
  Name : String
deriving DecidableEq, Repr

/-- Secret-key selector on the provider (`p.Spec.CredentialsSecretRef`):
namespace, name and key of the credentials secret. -/
structure SecretRef where
  Namespace : String
  Name : String
  Key : String
deriving DecidableEq, Repr

/-- `gcpv1alpha3.Provider`, reduced to the fields Connect reads:
`Spec.ProjectID` and `Spec.CredentialsSecretRef`
(`GetCredentialsSecretReference` returns `nil` iff the latter is `none`). -/
structure Provider where
  ProjectID : String
  CredentialsSecretRef : Option SecretRef
deriving DecidableEq, Repr

/-- `corev1.Secret`, reduced to its `Data` map; a missing key yields `none`
(Go: a nil byte slice). -/
structure Secret where
  Data : String → Option Bytes

/-- Error-string constants of `managed.go`. -/
def errGetProvider : String := "cannot get Provider"

/-- Error-string constant `errProviderSecretRef`. -/
def errProviderSecretRef : String := "cannot find Secret reference on Provider"

/-- Error-string constant `errGetProviderSecret`. -/
def errGetProviderSecret : String := "cannot get Provider Secret"

/-- Error-string constant `errNewClient`. -/
def errNewClient : String := "cannot create new GCP IAM API client"

/-- Error-string constant `errNotServiceAccount`. -/
def errNotServiceAccount : String := "managed resource is not a GCP ServiceAccount"

/-- Error-string constant `errGet`. -/
def errGet : String := "cannot get GCP ServiceAccount object via IAM API"

/-- Error-string constant `errCreate`. -/
def errCreate : String := "cannot create GCP ServiceAccount object via IAM API"

/-- Error-string constant `errUpdate`. -/
def errUpdate : String := "cannot update GCP ServiceAccount object via IAM API"

/-- Error-string constant `errDelete`. -/
def errDelete : String := "cannot delete GCP ServiceAccount object via IAM API"

/-- `RelativeResourceNamer`: binds the project (scope) name. -/
structure RelativeResourceNamer where
  projectName : String
deriving DecidableEq, Repr

/-- `NewRelativeResourceNamer`. -/
def NewRelativeResourceNamer (projectName : String) : RelativeResourceNamer :=
  { projectName := projectName }

/-- `RelativeResourceNamer.ProjectName`: `fmt.Sprintf("projects/%s", ...)`. -/
def RelativeResourceNamer.ProjectName (rrn : RelativeResourceNamer) : String :=
  "projects/" ++ rrn.projectName

/-- `RelativeResourceNamer.ResourceName`:
`fmt.Sprintf("projects/%s/serviceAccounts/%s@%s.iam.gserviceaccount.com", project, externalName, project)`. -/
def RelativeResourceNamer.ResourceName (rrn : RelativeResourceNamer)
    (sa : v1alpha1.ServiceAccount) : String :=
  "projects/" ++ rrn.projectName ++ "/serviceAccounts/" ++ GetExternalName sa
    ++ "@" ++ rrn.projectName ++ ".iam.gserviceaccount.com"

/-- `isUpToDate`: compares only the in-place-modifiable fields, and each
only when set (non-nil) in the desired parameters. -/
def isUpToDate (params : v1alpha1.ServiceAccountParameters)
    (observed : iamv1.ServiceAccount) : Bool :=
  if params.DisplayName ≠ none ∧ params.DisplayName ≠ some observed.DisplayName then
    false
  else if params.Description ≠ none ∧ params.Description ≠ some observed.Description then
    false
  else
    true

/-- `populateCRFromProvider`: copies the five provider fields into
`Status.AtProvider`. -/
def populateCRFromProvider (cr : v1alpha1.ServiceAccount)
    (fromProvider : iamv1.ServiceAccount) : v1alpha1.ServiceAccount :=
  { cr with atProvider :=
      { UniqueID := fromProvider.UniqueId
        Email := fromProvider.Email
        Oauth2ClientID := fromProvider.Oauth2ClientId
        Disabled := fromProvider.Disabled
        Name := fromProvider.Name } }

/-- `populateProviderFromCR`: projects the desired mutable fields onto a
provider-shaped value, absent options becoming empty strings. -/
def populateProviderFromCR (forProvider : iamv1.ServiceAccount)
    (cr : v1alpha1.ServiceAccount) : iamv1.ServiceAccount :=
  { forProvider with
      DisplayName := StringValue cr.forProvider.DisplayName
      Description := StringValue cr.forProvider.Description }

/-- `external`: the connected client; `serviceAccounts` is `none` exactly
when the Go pointer is nil (client construction failed). -/
structure External where
  serviceAccounts : Option iamv1.ProjectsServiceAccountsService
  rrn : RelativeResourceNamer
deriving DecidableEq, Repr

/-- Calls Connect issues against the Kubernetes store and the client
constructor, recorded in order. -/
inductive StoreCall where
  | getProvider
  | getSecret (n : NamespacedName)
  | newClient (creds : Option Bytes)
deriving DecidableEq, Repr

/-- Result of `connecter.Connect`: the returned `managed.ExternalClient`
(`none` for a nil interface), the returned error, and the calls issued. -/
structure ConnectResult where
  client : Option External
  err : Option GoError
  calls : List StoreCall
deriving Repr

/-- `connecter.Connect`.  The Kubernetes client's two `Get`s and the
`newSAS` constructor are oracles.  Mirrors `managed.go` lines 86-110,
including the final `return &external{...}, errors.Wrap(err, errNewClient)`
which returns a non-nil client value even when `newSAS` failed. -/
def connect (mg : Managed)
    (kubeGetProvider : Except GoError Provider)
    (kubeGetSecret : NamespacedName → Except GoError Secret)
    (newSAS : Option Bytes → Except GoError iamv1.ProjectsServiceAccountsService) :
    ConnectResult :=
  match mg with
  | Managed.other _ =>
      { client := none, err := some (GoError.new errNotServiceAccount), calls := [] }
  | Managed.serviceAccount _ =>
      match kubeGetProvider with
      | Except.error e =>
          { client := none, err := some (GoError.wrap e errGetProvider)
            calls := [StoreCall.getProvider] }
      | Except.ok p =>
          match p.CredentialsSecretRef with
          | none =>
              { client := none, err := some (GoError.new errProviderSecretRef)
                calls := [StoreCall.getProvider] }
          | some ref =>
              let n : NamespacedName := { Namespace := ref.Namespace, Name := ref.Name }
              match kubeGetSecret n with
              | Except.error e =>
                  { client := none, err := some (GoError.wrap e errGetProviderSecret)
                    calls := [StoreCall.getProvider, StoreCall.getSecret n] }
              | Except.ok s =>
                  let creds := s.Data ref.Key
                  let rrn := NewRelativeResourceNamer p.ProjectID
                  match newSAS creds with
                  | Except.ok saAPI =>
                      { client := some { serviceAccounts := some saAPI, rrn := rrn }
                        err := none
                        calls := [StoreCall.getProvider, StoreCall.getSecret n,
                                  StoreCall.newClient creds] }
                  | Except.error e =>
                      { client := some { serviceAccounts := none, rrn := rrn }
                        err := some (GoError.wrap e errNewClient)
                        calls := [StoreCall.getProvider, StoreCall.getSecret n,
                                  StoreCall.newClient creds] }

/-- Calls issued against the provider IAM API, recorded in order. -/
inductive ProviderCall where
  | get (name : String)
  | create (project : String) (req : iamv1.CreateServiceAccountRequest)
  | patch (name : String) (req : iamv1.PatchServiceAccountRequest)
  | delete (name : String)
deriving DecidableEq, Repr

/-- `managed.ExternalObservation` (connection details, always the empty
map here, omitted). Go zero value: both fields false. -/
structure ExternalObservation where
  ResourceExists : Bool
  ResourceUpToDate : Bool
deriving DecidableEq, Repr

/-- Result of `external.Observe`: the observation, the managed resource
after any in-place status mutation, the error, and the calls issued. -/
structure ObserveResult where
  obs : ExternalObservation
  post : Managed
  err : Option GoError
  calls : List ProviderCall
deriving Repr

/-- `external.Observe` (`managed.go` lines 117-138); the provider's Get
endpoint is an oracle from resource name to result.  The Get request is
issued before its result is inspected, so the call record does not depend
on the outcome; each component of the Go return value is computed by one
case split on that outcome (the not-found check precedes the error check,
exactly as in the source). -/
def observe (e : External) (mg : Managed)
    (providerGet : String → Except GoError iamv1.ServiceAccount) : ObserveResult :=
  match mg with
  | Managed.other k =>
      { obs := { ResourceExists := false, ResourceUpToDate := false }
        post := Managed.other k
        err := some (GoError.new errNotServiceAccount), calls := [] }
  | Managed.serviceAccount cr =>
      let name := e.rrn.ResourceName cr
      let res := providerGet name
      { obs :=
          match res with
          | Except.error _ => { ResourceExists := false, ResourceUpToDate := false }
          | Except.ok fromProvider =>
              { ResourceExists := true
                ResourceUpToDate :=
                  isUpToDate (populateCRFromProvider cr fromProvider).forProvider
                    fromProvider }
        post :=
          match res with
          | Except.error _ => Managed.serviceAccount cr
          | Except.ok fromProvider =>
              Managed.serviceAccount (populateCRFromProvider cr fromProvider)
        err :=
          match res with
          | Except.error err =>
              if IsErrorNotFound (some err) then none
              else some (GoError.wrap err errGet)
          | Except.ok _ => none
        calls := [ProviderCall.get name] }

/-- Result of `external.Create`, `external.Update` and `external.Delete`
(their `ExternalCreation` / `ExternalUpdate` returns are empty structs):
the managed resource after any in-place mutation, the error, the calls. -/
structure OpResult where
  post : Managed
  err : Option GoError
  calls : List ProviderCall
deriving Repr

/-- `external.Create` (`managed.go` lines 144-167); the provider Create
endpoint is an oracle from (project name, request) to result. -/
def create (e : External) (mg : Managed)
    (providerCreate : String → iamv1.CreateServiceAccountRequest →
      Except GoError iamv1.ServiceAccount) : OpResult :=
  match mg with
  | Managed.other k =>
      { post := Managed.other k
        err := some (GoError.new errNotServiceAccount), calls := [] }
  | Managed.serviceAccount cr =>
      let csar : iamv1.CreateServiceAccountRequest :=
        { AccountId := GetExternalName cr
          ServiceAccount :=
            { iamv1.ServiceAccount.zero with
                DisplayName := StringValue cr.forProvider.DisplayName
                Description := StringValue cr.forProvider.Description } }
      let project := e.rrn.ProjectName
      let res := providerCreate project csar
      { post :=
          match res with
          | Except.error _ => Managed.serviceAccount cr
          | Except.ok fromProvider =>
              Managed.serviceAccount (populateCRFromProvider cr fromProvider)
        err :=
          match res with
          | Except.error err => some (GoError.wrap err errCreate)
          | Except.ok _ => none
        calls := [ProviderCall.create project csar] }

/-- `external.Update` (`managed.go` lines 170-187); the provider Patch
endpoint is an oracle.  The patch response is discarded and the managed
resource is left untouched. -/
def update (e : External) (mg : Managed)
    (providerPatch : String → iamv1.PatchServiceAccountRequest →
      Except GoError iamv1.ServiceAccount) : OpResult :=
  match mg with
  | Managed.other k =>
      { post := Managed.other k
        err := some (GoError.new errNotServiceAccount), calls := [] }
  | Managed.serviceAccount cr =>
      let sa := populateProviderFromCR iamv1.ServiceAccount.zero cr
      let psar : iamv1.PatchServiceAccountRequest :=
        { ServiceAccount := sa, UpdateMask := "description,displayName" }
      let name := e.rrn.ResourceName cr
      let err : Option GoError :=
        match providerPatch name psar with
        | Except.ok _ => none
        | Except.error err => some err
      { post := Managed.serviceAccount cr
        err := goWrap err errUpdate
        calls := [ProviderCall.patch name psar] }

/-- `external.Delete` (`managed.go` lines 190-203); the provider Delete
endpoint is an oracle from resource name to result (`Unit` for
`*iamv1.Empty`). -/
def delete (e : External) (mg : Managed)
    (providerDelete : String → Except GoError Unit) : OpResult :=
  match mg with
  | Managed.other k =>
      { post := Managed.other k
        err := some (GoError.new errNotServiceAccount), calls := [] }
  | Managed.serviceAccount cr =>
      let name := e.rrn.ResourceName cr
      let err : Option GoError :=
        match providerDelete name with
        | Except.ok _ => none
        | Except.error err => some err
      { post := Managed.serviceAccount cr
        err := if IsErrorNotFound err then none else goWrap err errDelete
        calls := [ProviderCall.delete name] }

/-! ### Theorems about the embedded controller -/

/-- C9: for every managed resource that is not a GCP ServiceAccount, each
of Connect, Observe, Create, Update and Delete fails with the static
wrong-kind error `errNotServiceAccount`, issues no store or provider call,
and leaves the resource untouched. -/
theorem wrong_kind_rejects_everywhere (k : String) (e : External)
    (kubeGetProvider : Except GoError Provider)
    (kubeGetSecret : NamespacedName → Except GoError Secret)
    (newSAS : Option Bytes → Except GoError iamv1.ProjectsServiceAccountsService)
    (providerGet : String → Except GoError iamv1.ServiceAccount)
    (providerCreate : String → iamv1.CreateServiceAccountRequest →
      Except GoError iamv1.ServiceAccount)
    (providerPatch : String → iamv1.PatchServiceAccountRequest →
      Except GoError iamv1.ServiceAccount)
    (providerDelete : String → Except GoError Unit) :
    connect (Managed.other k) kubeGetProvider kubeGetSecret newSAS =
      { client := none, err := some (GoError.new errNotServiceAccount), calls := [] } ∧
    observe e (Managed.other k) providerGet =
      { obs := { ResourceExists := false, ResourceUpToDate := false }
        post := Managed.other k
        err := some (GoError.new errNotServiceAccount), calls := [] } ∧
    create e (Managed.other k) providerCreate =
      { post := Managed.other k
        err := some (GoError.new errNotServiceAccount), calls := [] } ∧
    update e (Managed.other k) providerPatch =
      { post := Managed.other k
        err := some (GoError.new errNotServiceAccount), calls := [] } ∧
    delete e (Managed.other k) providerDelete =
      { post := Managed.other k
        err := some (GoError.new errNotServiceAccount), calls := [] } :=
  ⟨rfl, rfl, rfl, rfl, rfl⟩

/-- C7: Update never modifies the managed resource (in particular its
status fields), whatever the provider's patch call returns. -/
theorem update_preserves_managed_resource (e : External) (mg : Managed)
    (providerPatch : String → iamv1.PatchServiceAccountRequest →
      Except GoError iamv1.ServiceAccount) :
    (update e mg providerPatch).post = mg := by
  cases mg <;> rfl

/-- C6: the patch request Update sends always carries the fixed update
mask "description,displayName", independent of the desired parameters and
of the provider's answer. -/
theorem update_mask_is_constant (e : External) (cr : v1alpha1.ServiceAccount)
    (providerPatch : String → iamv1.PatchServiceAccountRequest →
      Except GoError iamv1.ServiceAccount) :
    ∃ req : iamv1.PatchServiceAccountRequest,
      (update e (Managed.serviceAccount cr) providerPatch).calls =
        [ProviderCall.patch (e.rrn.ResourceName cr) req] ∧
      req.UpdateMask = "description,displayName" :=
  ⟨_, rfl, rfl⟩

/-- C2: when the provider's delete call reports not-found, Delete returns
no error; any other provider error is returned wrapped with the static
`errDelete` context message. -/
theorem delete_notfound_is_success (e : External) (cr : v1alpha1.ServiceAccount)
    (providerDelete : String → Except GoError Unit) (err : GoError)
    (h : providerDelete (e.rrn.ResourceName cr) = Except.error err) :
    (IsErrorNotFound (some err) = true →
      (delete e (Managed.serviceAccount cr) providerDelete).err = none) ∧
    (IsErrorNotFound (some err) = false →
      (delete e (Managed.serviceAccount cr) providerDelete).err =
        some (GoError.wrap err errDelete)) := by
  constructor <;> intro hnf <;> simp [delete, h, hnf, goWrap]

/-- C2 witness: a concrete 404 from the provider makes Delete succeed. -/
theorem delete_notfound_is_success_witness :
    (delete { serviceAccounts := some {}, rrn := NewRelativeResourceNamer "proj-1" }
      (Managed.serviceAccount
        { externalName := "svc-a"
          forProvider := { DisplayName := none, Description := none }
          atProvider :=
            { UniqueID := "", Email := "", Oauth2ClientID := ""
              Disabled := false, Name := "" } })
      (fun _ => Except.error (GoError.googleapi 404 "not found"))).err = none :=
  (delete_notfound_is_success _ _ _ (GoError.googleapi 404 "not found") rfl).1 rfl

/-- C3: when the provider's get call reports not-found, Observe reports
ResourceExists = false with no error and no resource mutation; any other
provider error is returned wrapped with the static `errGet` message
together with the zero-valued observation. -/
theorem observe_notfound_is_normal (e : External) (cr : v1alpha1.ServiceAccount)
    (providerGet : String → Except GoError iamv1.ServiceAccount) (err : GoError)
    (h : providerGet (e.rrn.ResourceName cr) = Except.error err) :
    (IsErrorNotFound (some err) = true →
      observe e (Managed.serviceAccount cr) providerGet =
        { obs := { ResourceExists := false, ResourceUpToDate := false }
          post := Managed.serviceAccount cr, err := none
          calls := [ProviderCall.get (e.rrn.ResourceName cr)] }) ∧
    (IsErrorNotFound (some err) = false →
      (observe e (Managed.serviceAccount cr) providerGet).err =
        some (GoError.wrap err errGet) ∧
      (observe e (Managed.serviceAccount cr) providerGet).obs =
        { ResourceExists := false, ResourceUpToDate := false }) := by
  constructor <;> intro hnf <;> simp [observe, h, hnf]

/-- C3 witness: a concrete 404 from the provider makes Observe report
non-existence without error. -/
theorem observe_notfound_is_normal_witness :
    observe { serviceAccounts := some {}, rrn := NewRelativeResourceNamer "proj-1" }
      (Managed.serviceAccount
        { externalName := "svc-a"
          forProvider := { DisplayName := none, Description := none }
          atProvider :=
            { UniqueID := "", Email := "", Oauth2ClientID := ""
              Disabled := false, Name := "" } })
      (fun _ => Except.error (GoError.googleapi 404 "not found")) =
      { obs := { ResourceExists := false, ResourceUpToDate := false }
        post := Managed.serviceAccount
          { externalName := "svc-a"
            forProvider := { DisplayName := none, Description := none }
            atProvider :=
              { UniqueID := "", Email := "", Oauth2ClientID := ""
                Disabled := false, Name := "" } }
        err := none
        calls := [ProviderCall.get
          ((NewRelativeResourceNamer "proj-1").ResourceName
            { externalName := "svc-a"
              forProvider := { DisplayName := none, Description := none }
              atProvider :=
                { UniqueID := "", Email := "", Oauth2ClientID := ""
                  Disabled := false, Name := "" } })] } :=
  (observe_notfound_is_normal _ _ _ (GoError.googleapi 404 "not found") rfl).1 rfl

/-- C4: an unset desired field is never compared (the observed value has no
effect on isUpToDate); a set field that differs from the observed value
forces false; when every set field matches its observed value the result
is true. -/
theorem isUpToDate_asymmetric_drift (p : v1alpha1.ServiceAccountParameters)
    (obs : iamv1.ServiceAccount) :
    (∀ v, p.DisplayName = none →
      isUpToDate p { obs with DisplayName := v } = isUpToDate p obs) ∧
    (∀ v, p.Description = none →
      isUpToDate p { obs with Description := v } = isUpToDate p obs) ∧
    (∀ d, p.DisplayName = some d → d ≠ obs.DisplayName →
      isUpToDate p obs = false) ∧
    (∀ d, p.Description = some d → d ≠ obs.Description →
      isUpToDate p obs = false) ∧
    ((∀ d, p.DisplayName = some d → d = obs.DisplayName) →
     (∀ d, p.Description = some d → d = obs.Description) →
      isUpToDate p obs = true) := by
  obtain ⟨dn, ds⟩ := p
  refine ⟨?_, ?_, ?_, ?_, ?_⟩
  · intro v h
    subst h
    simp [isUpToDate]
  · intro v h
    subst h
    simp [isUpToDate]
  · intro d h hne
    subst h
    simp [isUpToDate, hne]
  · intro d h hne
    subst h
    cases dn with
    | none => simp [isUpToDate, hne]
    | some d0 =>
        by_cases hd0 : d0 = obs.DisplayName <;> simp [isUpToDate, hne, hd0]
  · intro hdn hds
    cases dn with
    | none =>
        cases ds with
        | none => simp [isUpToDate]
        | some d1 => simp [isUpToDate, hds d1 rfl]
    | some d0 =>
        cases ds with
        | none => simp [isUpToDate, hdn d0 rfl]
        | some d1 => simp [isUpToDate, hdn d0 rfl, hds d1 rfl]

/-- C4 witness: concrete checks of each conjunct of the asymmetric-drift
theorem — an unset displayName ignores observed drift, a set-and-different
displayName and description each force false, and matching set fields give
true. -/
theorem isUpToDate_asymmetric_drift_witness :
    (isUpToDate { DisplayName := none, Description := some "d" }
        { Name := "", UniqueId := "", Email := "", Oauth2ClientId := ""
          Disabled := false, DisplayName := "changed", Description := "d" } =
      isUpToDate { DisplayName := none, Description := some "d" }
        { Name := "", UniqueId := "", Email := "", Oauth2ClientId := ""
          Disabled := false, DisplayName := "orig", Description := "d" }) ∧
    (isUpToDate { DisplayName := some "x", Description := none }
        { Name := "", UniqueId := "", Email := "", Oauth2ClientId := ""
          Disabled := false, DisplayName := "y", Description := "" } = false) ∧
    (isUpToDate { DisplayName := none, Description := some "a" }
        { Name := "", UniqueId := "", Email := "", Oauth2ClientId := ""
          Disabled := false, DisplayName := "", Description := "b" } = false) ∧
    (isUpToDate { DisplayName := some "x", Description := none }
        { Name := "", UniqueId := "", Email := "", Oauth2ClientId := ""
          Disabled := false, DisplayName := "x", Description := "zzz" } = true) := by
  refine ⟨?_, ?_, ?_, ?_⟩
  · exact (isUpToDate_asymmetric_drift
      { DisplayName := none, Description := some "d" }
      { Name := "", UniqueId := "", Email := "", Oauth2ClientId := ""
        Disabled := false, DisplayName := "orig", Description := "d" }).1
      "changed" rfl
  · exact (isUpToDate_asymmetric_drift
      { DisplayName := some "x", Description := none }
      { Name := "", UniqueId := "", Email := "", Oauth2ClientId := ""
        Disabled := false, DisplayName := "y", Description := "" }).2.2.1
      "x" rfl (by decide)
  · exact (isUpToDate_asymmetric_drift
      { DisplayName := none, Description := some "a" }
      { Name := "", UniqueId := "", Email := "", Oauth2ClientId := ""
        Disabled := false, DisplayName := "", Description := "b" }).2.2.2.1
      "a" rfl (by decide)
  · exact (isUpToDate_asymmetric_drift
      { DisplayName := some "x", Description := none }
      { Name := "", UniqueId := "", Email := "", Oauth2ClientId := ""
        Disabled := false, DisplayName := "x", Description := "zzz" }).2.2.2.2
      (fun d hd => by injection hd with h; exact h.symm ▸ rfl)
      (fun d hd => by cases hd)

/-- C8: the create request uses the resource's external name as AccountId,
is keyed by the namer's project (scope) address — which always differs
from the fully-qualified resource address — and projects absent optional
fields to the empty string. -/
theorem create_request_shape (e : External) (cr : v1alpha1.ServiceAccount)
    (providerCreate : String → iamv1.CreateServiceAccountRequest →
      Except GoError iamv1.ServiceAccount) :
    ∃ req : iamv1.CreateServiceAccountRequest,
      (create e (Managed.serviceAccount cr) providerCreate).calls =
        [ProviderCall.create e.rrn.ProjectName req] ∧
      req.AccountId = GetExternalName cr ∧
      req.ServiceAccount.DisplayName = StringValue cr.forProvider.DisplayName ∧
      req.ServiceAccount.Description = StringValue cr.forProvider.Description ∧
      (cr.forProvider.DisplayName = none → req.ServiceAccount.DisplayName = "") ∧
      (cr.forProvider.Description = none → req.ServiceAccount.Description = "") ∧
      e.rrn.ProjectName ≠ e.rrn.ResourceName cr := by
  refine ⟨_, rfl, rfl, rfl, rfl, ?_, ?_, ?_⟩
  · intro h
    simp [h, StringValue]
  · intro h
    simp [h, StringValue]
  · intro h
    have hlen := congrArg String.length h
    simp only [RelativeResourceNamer.ProjectName, RelativeResourceNamer.ResourceName,
      String.length_append] at hlen
    have h17 : ("/serviceAccounts/" : String).length = 17 := rfl
    have h1 : ("@" : String).length = 1 := rfl
    have h24 : (".iam.gserviceaccount.com" : String).length = 24 := rfl
    omega

/-- C8 witness: for a concrete resource with both optional fields absent,
the create request projects both to the empty string, keys by the project
address and carries the external name as AccountId. -/
theorem create_request_shape_witness :
    ∃ req : iamv1.CreateServiceAccountRequest,
      (create { serviceAccounts := some {}, rrn := NewRelativeResourceNamer "proj-1" }
        (Managed.serviceAccount
          { externalName := "svc-a"
            forProvider := { DisplayName := none, Description := none }
            atProvider :=
              { UniqueID := "", Email := "", Oauth2ClientID := ""
                Disabled := false, Name := "" } })
        (fun _ _ => Except.error (GoError.new "unreached"))).calls =
        [ProviderCall.create (NewRelativeResourceNamer "proj-1").ProjectName req] ∧
      req.AccountId = "svc-a" ∧
      req.ServiceAccount.DisplayName = "" ∧
      req.ServiceAccount.Description = "" := by
  obtain ⟨req, hcalls, hacct, hdn, hds, hdn0, hds0, _⟩ :=
    create_request_shape
      { serviceAccounts := some {}, rrn := NewRelativeResourceNamer "proj-1" }
      { externalName := "svc-a"
        forProvider := { DisplayName := none, Description := none }
        atProvider :=
          { UniqueID := "", Email := "", Oauth2ClientID := ""
            Disabled := false, Name := "" } }
      (fun _ _ => Except.error (GoError.new "unreached"))
  exact ⟨req, hcalls, hacct, hdn0 rfl, hds0 rfl⟩

/-- C10: when the referenced secret exists but lacks the referenced key,
Connect passes the absent (nil) credential bytes straight to the client
constructor and its outcome is exactly the constructor's outcome wrapped
with `errNewClient` — Connect raises no missing-key not-found error of its
own. -/
theorem connect_missing_key_defers_to_constructor
    (cr : v1alpha1.ServiceAccount) (p : Provider) (ref : SecretRef) (s : Secret)
    (kubeGetSecret : NamespacedName → Except GoError Secret)
    (newSAS : Option Bytes → Except GoError iamv1.ProjectsServiceAccountsService)
    (h1 : p.CredentialsSecretRef = some ref)
    (h2 : kubeGetSecret { Namespace := ref.Namespace, Name := ref.Name } = Except.ok s)
    (h3 : s.Data ref.Key = none) :
    (connect (Managed.serviceAccount cr) (Except.ok p) kubeGetSecret newSAS).calls =
      [StoreCall.getProvider,
       StoreCall.getSecret { Namespace := ref.Namespace, Name := ref.Name },
       StoreCall.newClient none] ∧
    (connect (Managed.serviceAccount cr) (Except.ok p) kubeGetSecret newSAS).err =
      (match newSAS none with
       | Except.ok _ => none
       | Except.error e2 => some (GoError.wrap e2 errNewClient)) := by
  cases hn : newSAS none <;> simp [connect, h1, h2, h3, hn]

/-- C10 witness: concrete secret without the referenced key; the
constructor is handed `none` and its error is the only one surfaced,
wrapped with `errNewClient`. -/
theorem connect_missing_key_defers_to_constructor_witness :
    (connect
      (Managed.serviceAccount
        { externalName := "svc-a"
          forProvider := { DisplayName := none, Description := none }
          atProvider :=
            { UniqueID := "", Email := "", Oauth2ClientID := ""
              Disabled := false, Name := "" } })
      (Except.ok { ProjectID := "proj-1"
                   CredentialsSecretRef := some
                     { Namespace := "crossplane", Name := "gcp-creds", Key := "creds.json" } })
      (fun _ => Except.ok { Data := fun _ => none })
      (fun _ => Except.error (GoError.new "invalid credentials"))).calls =
      [StoreCall.getProvider,
       StoreCall.getSecret { Namespace := "crossplane", Name := "gcp-creds" },
       StoreCall.newClient none] ∧
    (connect
      (Managed.serviceAccount
        { externalName := "svc-a"
          forProvider := { DisplayName := none, Description := none }
          atProvider :=
            { UniqueID := "", Email := "", Oauth2ClientID := ""
              Disabled := false, Name := "" } })
      (Except.ok { ProjectID := "proj-1"
                   CredentialsSecretRef := some
                     { Namespace := "crossplane", Name := "gcp-creds", Key := "creds.json" } })
      (fun _ => Except.ok { Data := fun _ => none })
      (fun _ => Except.error (GoError.new "invalid credentials"))).err =
      some (GoError.wrap (GoError.new "invalid credentials") errNewClient) := by
  have h := connect_missing_key_defers_to_constructor
    { externalName := "svc-a"
      forProvider := { DisplayName := none, Description := none }
      atProvider :=
        { UniqueID := "", Email := "", Oauth2ClientID := ""
          Disabled := false, Name := "" } }
    { ProjectID := "proj-1"
      CredentialsSecretRef := some
        { Namespace := "crossplane", Name := "gcp-creds", Key := "creds.json" } }
    { Namespace := "crossplane", Name := "gcp-creds", Key := "creds.json" }
    { Data := fun _ => none }
    (fun _ => Except.ok { Data := fun _ => none })
    (fun _ => Except.error (GoError.new "invalid credentials"))
    rfl rfl rfl
  exact ⟨h.1, h.2⟩

/-- C1 counterexample: when client construction fails, Connect returns a
non-nil client value (with a nil service handle) *together with* the
non-nil wrapped error — refuting the claim that a non-nil error is never
accompanied by a client value. -/
theorem connect_partial_client_counterexample :
    (connect
      (Managed.serviceAccount
        { externalName := "svc-a"
          forProvider := { DisplayName := none, Description := none }
          atProvider :=
            { UniqueID := "", Email := "", Oauth2ClientID := ""
              Disabled := false, Name := "" } })
      (Except.ok { ProjectID := "proj-1"
                   CredentialsSecretRef := some
                     { Namespace := "crossplane", Name := "gcp-creds", Key := "creds.json" } })
      (fun _ => Except.ok { Data := fun _ => some [123] })
      (fun _ => Except.error (GoError.new "bad credentials"))).err.isSome = true ∧
    (connect
      (Managed.serviceAccount
        { externalName := "svc-a"
          forProvider := { DisplayName := none, Description := none }
          atProvider :=
            { UniqueID := "", Email := "", Oauth2ClientID := ""
              Disabled := false, Name := "" } })
      (Except.ok { ProjectID := "proj-1"
                   CredentialsSecretRef := some
                     { Namespace := "crossplane", Name := "gcp-creds", Key := "creds.json" } })
      (fun _ => Except.ok { Data := fun _ => some [123] })
      (fun _ => Except.error (GoError.new "bad credentials"))).client =
      some { serviceAccounts := none, rrn := NewRelativeResourceNamer "proj-1" } :=
  ⟨rfl, rfl⟩

/-- C1 amended: the three fetch steps short-circuit on first failure and
return no client at all; only the final client-construction step can pair
a non-nil error with a client value, and that client's service handle is
nil.  So whenever Connect errs, the client is either absent or carries no
service handle. -/
theorem connect_error_short_circuit (mg : Managed)
    (kubeGetProvider : Except GoError Provider)
    (kubeGetSecret : NamespacedName → Except GoError Secret)
    (newSAS : Option Bytes → Except GoError iamv1.ProjectsServiceAccountsService)
    (h : (connect mg kubeGetProvider kubeGetSecret newSAS).err.isSome = true) :
    (connect mg kubeGetProvider kubeGetSecret newSAS).client = none ∨
    ∃ ext : External,
      (connect mg kubeGetProvider kubeGetSecret newSAS).client = some ext ∧
      ext.serviceAccounts = none := by
  cases mg with
  | other k => exact Or.inl rfl
  | serviceAccount cr =>
      cases kubeGetProvider with
      | error e => exact Or.inl rfl
      | ok p =>
          cases hp : p.CredentialsSecretRef with
          | none => left; simp [connect, hp]
          | some ref =>
              cases hs : kubeGetSecret { Namespace := ref.Namespace, Name := ref.Name } with
              | error e => left; simp [connect, hp, hs]
              | ok s =>
                  cases hn : newSAS (s.Data ref.Key) with
                  | ok sas =>
                      exfalso
                      simp [connect, hp, hs, hn] at h
                  | error e2 =>
                      right
                      exact ⟨{ serviceAccounts := none
                               rrn := NewRelativeResourceNamer p.ProjectID },
                        by simp [connect, hp, hs, hn], rfl⟩

/-- C1 amended witness: at the counterexample input the error is present,
so the client is either absent or carries no service handle. -/
theorem connect_error_short_circuit_witness :
    (connect
      (Managed.serviceAccount
        { externalName := "svc-b"
          forProvider := { DisplayName := none, Description := none }
          atProvider :=
            { UniqueID := "", Email := "", Oauth2ClientID := ""
              Disabled := false, Name := "" } })
      (Except.ok { ProjectID := "proj-2"
                   CredentialsSecretRef := some
                     { Namespace := "crossplane", Name := "gcp-creds", Key := "creds.json" } })
      (fun _ => Except.ok { Data := fun _ => some [7] })
      (fun _ => Except.error (GoError.new "broken"))).client = none ∨
    ∃ ext : External,
      (connect
        (Managed.serviceAccount
          { externalName := "svc-b"
            forProvider := { DisplayName := none, Description := none }
            atProvider :=
              { UniqueID := "", Email := "", Oauth2ClientID := ""
                Disabled := false, Name := "" } })
        (Except.ok { ProjectID := "proj-2"
                     CredentialsSecretRef := some
                       { Namespace := "crossplane", Name := "gcp-creds", Key := "creds.json" } })
        (fun _ => Except.ok { Data := fun _ => some [7] })
        (fun _ => Except.error (GoError.new "broken"))).client = some ext ∧
      ext.serviceAccounts = none :=
  connect_error_short_circuit _ _ _ _ rfl

/-- C5 counterexample: two namer/external-name pairs with distinct scopes
and distinct names that yield the *same* resource address (the scope may
contain `/serviceAccounts/` and `@`, which the string interpolation does
not escape), refuting joint injectivity of the address in (scope, name). -/
theorem resourceName_collision_counterexample :
    ("a" : String) ≠ "a/serviceAccounts/x@a" ∧
    ("x@a/serviceAccounts/d@a/serviceAccounts/x" : String) ≠ "d" ∧
    (NewRelativeResourceNamer "a").ResourceName
      { externalName := "x@a/serviceAccounts/d@a/serviceAccounts/x"
        forProvider := { DisplayName := none, Description := none }
        atProvider :=
          { UniqueID := "", Email := "", Oauth2ClientID := ""
            Disabled := false, Name := "" } } =
    (NewRelativeResourceNamer "a/serviceAccounts/x@a").ResourceName
      { externalName := "d"
        forProvider := { DisplayName := none, Description := none }
        atProvider :=
          { UniqueID := "", Email := "", Oauth2ClientID := ""
            Disabled := false, Name := "" } } :=
  ⟨by decide, by decide, by decide⟩

/-- C5 amended: the resource address is exactly the documented
interpolation and the scope address exactly "projects/" ++ scope
(independent of any external name); the address is deterministic in
(scope, external name); and varying one argument while fixing the other
always changes the address — changing only the external name, or only the
scope, yields a distinct address.  (Varying both at once can collide, per
the counterexample.) -/
theorem resourceName_formula_and_per_argument_distinctness (s : String)
    (rrn rrn' : RelativeResourceNamer) (sa sa' : v1alpha1.ServiceAccount) :
    (NewRelativeResourceNamer s).ResourceName sa =
      "projects/" ++ s ++ "/serviceAccounts/" ++ sa.externalName ++ "@" ++ s
        ++ ".iam.gserviceaccount.com" ∧
    (NewRelativeResourceNamer s).ProjectName = "projects/" ++ s ∧
    (rrn.projectName = rrn'.projectName → sa.externalName = sa'.externalName →
      rrn.ResourceName sa = rrn'.ResourceName sa') ∧
    (rrn.ResourceName sa = rrn.ResourceName sa' →
      sa.externalName = sa'.externalName) ∧
    (sa.externalName = sa'.externalName →
      rrn.ResourceName sa = rrn'.ResourceName sa' →
      rrn.projectName = rrn'.projectName) := by
  refine ⟨rfl, rfl, ?_, ?_, ?_⟩
  · intro hs hn
    simp [RelativeResourceNamer.ResourceName, GetExternalName, hs, hn]
  · intro h
    have hd := congrArg String.data h
    simp only [RelativeResourceNamer.ResourceName, GetExternalName,
      String.data_append, List.append_assoc] at hd
    have h1 := List.append_cancel_left hd
    have h2 := List.append_cancel_left h1
    have h3 := List.append_cancel_left h2
    exact String.ext (List.append_cancel_right h3)
  · intro hn h
    have hd := congrArg String.data h
    simp only [RelativeResourceNamer.ResourceName, GetExternalName,
      String.data_append, List.append_assoc] at hd
    rw [hn] at hd
    have hlen := congrArg List.length hd
    simp only [List.length_append] at hlen
    have hss : rrn.projectName.data.length = rrn'.projectName.data.length := by
      omega
    have h1 := List.append_cancel_left hd
    exact String.ext (List.append_inj h1 hss).1

/-- C5 amended witness: the concrete address of (proj-1, svc-a), the
scope address, and per-argument distinctness consequences applied at
concrete equal inputs. -/
theorem resourceName_formula_witness :
    (NewRelativeResourceNamer "proj-1").ResourceName
      { externalName := "svc-a"
        forProvider := { DisplayName := none, Description := none }
        atProvider :=
          { UniqueID := "", Email := "", Oauth2ClientID := ""
            Disabled := false, Name := "" } } =
      "projects/proj-1/serviceAccounts/svc-a@proj-1.iam.gserviceaccount.com" ∧
    (NewRelativeResourceNamer "proj-1").ProjectName = "projects/proj-1" ∧
    ({ externalName := "svc-a"
       forProvider := { DisplayName := some "keep", Description := none }
       atProvider :=
         { UniqueID := "", Email := "", Oauth2ClientID := ""
           Disabled := false, Name := "" } } : v1alpha1.ServiceAccount).externalName =
    ({ externalName := "svc-a"
       forProvider := { DisplayName := none, Description := some "other" }
       atProvider :=
         { UniqueID := "", Email := "", Oauth2ClientID := ""
           Disabled := false, Name := "" } } : v1alpha1.ServiceAccount).externalName := by
  have h := resourceName_formula_and_per_argument_distinctness "proj-1"
    (NewRelativeResourceNamer "proj-1") (NewRelativeResourceNamer "proj-1")
    { externalName := "svc-a"
      forProvider := { DisplayName := some "keep", Description := none }
      atProvider :=
        { UniqueID := "", Email := "", Oauth2ClientID := ""
          Disabled := false, Name := "" } }
    { externalName := "svc-a"
      forProvider := { DisplayName := none, Description := some "other" }
      atProvider :=
        { UniqueID := "", Email := "", Oauth2ClientID := ""
          Disabled := false, Name := "" } }
  exact ⟨by decide, h.2.1, h.2.2.2.1 rfl⟩
